import Mathlib

/-!
Shallow embedding of the `windowmanager-poc` platform stub.

Source files embedded:
* `src/platform/native/window_controller_stub.h`: the `WindowRect` struct
  (four `int` fields) and the declaration of `log_initialize`.
* `src/platform/native/window_controller_stub.cpp`: the definition
  `void log_initialize(const char* platform_name) {
     std::cout << "Initializing window controller for platform: "
               << platform_name << std::endl;
   }`

Modelling choices:
* A C string (`const char*` pointing at a NUL-terminated buffer) is a
  `List Char`; the null pointer case is modelled separately by `Option`.
* `std::cout` is a buffered output stream: insertions (`operator<<`)
  append characters to the buffer, and `std::endl` inserts a newline and
  then flushes, which performs one blocking write of the buffered data
  to the underlying output.
* The `int` fields of `WindowRect` are modelled as `Int`: the source only
  stores and reads them, performing no arithmetic, so no overflow can occur.
-/

namespace WindowManager

/-- The `WindowRect` struct from `window_controller_stub.h`: four
independent integer fields, no invariants, no member functions. -/
structure WindowRect where
  x : Int
  y : Int
  width : Int
  height : Int

/-- The fixed string literal inserted first by `log_initialize`
(note the trailing space). -/
def logHeader : List Char :=
  "Initializing window controller for platform: ".toList

/-- The line terminator inserted by `std::endl`. -/
def lineTerminator : List Char := ['\n']

/-- The complete character sequence that one call to `log_initialize`
inserts into `std::cout`: the fixed header, then the argument verbatim,
then the newline from `std::endl`. -/
def log_initialize_line (platform_name : List Char) : List Char :=
  logHeader ++ platform_name ++ lineTerminator

/-- A buffered output stream such as `std::cout`: `buffer` holds the
characters inserted but not yet flushed, `written` records the blocking
writes (flushes) performed on the underlying output, in order. -/
structure OStream where
  buffer : List Char
  written : List (List Char)

/-- `operator<<` on the stream: appends the data to the stream buffer. -/
def OStream.insert (s : OStream) (data : List Char) : OStream :=
  { s with buffer := s.buffer ++ data }

/-- A flush (the second effect of `std::endl`): performs one blocking
write of the buffered characters to the underlying output and empties
the buffer. -/
def OStream.flush (s : OStream) : OStream :=
  { buffer := [], written := s.written ++ [s.buffer] }

/-- All characters that have reached the stream, flushed or not. -/
def streamContents (s : OStream) : List Char :=
  s.written.flatten ++ s.buffer

/-- The effect of one call of `log_initialize` on `std::cout`:
`cout << logHeader << platform_name << '\n'` followed by a flush
(the two halves of `std::endl`). -/
def log_initialize_stream (p : List Char) (s : OStream) : OStream :=
  OStream.flush (((s.insert logHeader).insert p).insert lineTerminator)

/-- Whole-program state: the process-wide `std::cout` stream plus an
arbitrary remainder `other` standing for every other part of the
program state. -/
structure ProgState (σ : Type) where
  stdout : OStream
  other : σ

/-- One call of `log_initialize` at the level of the whole program
state: the C++ function returns `void` and touches only `std::cout`. -/
def log_initialize_prog {σ : Type} (p : List Char) (st : ProgState σ) : ProgState σ :=
  { st with stdout := log_initialize_stream p st.stdout }

/-- `log_initialize` on a possibly-null `const char*`. Inserting a null
`char*` into an `ostream` is undefined behaviour, modelled by `none`;
the source contains no guard against it. -/
def log_initialize_c (platform_name : Option (List Char)) : Option (List Char) :=
  match platform_name with
  | none => none
  | some p => some (log_initialize_line p)

/-- The byte sequence that one call of `log_initialize` appends to the
total stream contents, starting from stream state `s`. -/
def emittedBy (p : List Char) (s : OStream) : List Char :=
  (streamContents (log_initialize_stream p s)).drop (streamContents s).length

/-- The inverse direction of the log format: strip the fixed header and
the final line terminator from an output line. -/
def recoverPlatform (out : List Char) : List Char :=
  (out.drop logHeader.length).dropLast

/-! ### Helper lemmas -/

/-- A call appends exactly the formatted line to the stream contents. -/
theorem streamContents_log_initialize_stream (p : List Char) (s : OStream) :
    streamContents (log_initialize_stream p s) =
      streamContents s ++ (logHeader ++ p ++ lineTerminator) := by
  simp [streamContents, log_initialize_stream, OStream.flush, OStream.insert,
    List.flatten_append, List.append_assoc]

/-- The characters a call emits are the formatted line, independent of
the starting stream state. -/
theorem emittedBy_eq (p : List Char) (s : OStream) :
    emittedBy p s = logHeader ++ p ++ lineTerminator := by
  rw [emittedBy, streamContents_log_initialize_stream, List.drop_left]

/-! ### Claims -/

/-- Claim C1: a call to `log_initialize(P)` writes to standard output
exactly the fixed header `"Initializing window controller for platform: "`
followed by `P` followed by a line terminator, and writes nothing else:
the stream contents after the call are the old contents with exactly
that line appended. -/
theorem log_initialize_output_exact (p : List Char) (s : OStream) :
    streamContents (log_initialize_stream p s) =
      streamContents s ++ (logHeader ++ p ++ lineTerminator) :=
  streamContents_log_initialize_stream p s

/-- Claim C2 (counterexample): for the input text `"\n"`, the output of
`log_initialize` contains two line terminators, so it is not exactly one
line containing the input. -/
theorem log_initialize_one_line_cex :
    ¬ ((log_initialize_line ['\n']).count '\n' = 1 ∧
        ['\n'] <:+: (log_initialize_line ['\n']).dropLast) := by
  intro h
  exact absurd h.1 (by decide)

/-- Claim C2 (amended): for any input text `P` that contains no line
terminator, a single call to `log_initialize_line` produces exactly one line
of output (exactly one terminating newline), and that line contains `P`
verbatim. -/
theorem log_initialize_one_line (p : List Char) (h : '\n' ∉ p) :
    (log_initialize_line p).count '\n' = 1 ∧ p <:+: (log_initialize_line p).dropLast := by
  constructor
  · simp [log_initialize_line, List.count_append, logHeader, lineTerminator,
      List.count_eq_zero.mpr h]
  · have hline : (log_initialize_line p).dropLast = logHeader ++ p := by
      rw [log_initialize_line, lineTerminator, List.dropLast_concat]
    rw [hline]
    exact ⟨logHeader, [], by simp⟩

/-- Claim C2 (witness): the amended claim at the concrete input `"X"`. -/
theorem log_initialize_one_line_witness :
    '\n' ∉ ['X'] ∧
      ((log_initialize_line ['X']).count '\n' = 1 ∧
        ['X'] <:+: (log_initialize_line ['X']).dropLast) :=
  ⟨by decide, log_initialize_one_line ['X'] (by decide)⟩

/-- Claim C3: constructing a `WindowRect` from any four integers and
reading back its `x`, `y`, `width` and `height` fields yields the same
four integers unchanged. -/
theorem windowRect_roundtrip (a b c d : Int) :
    (WindowRect.mk a b c d).x = a ∧ (WindowRect.mk a b c d).y = b ∧
      (WindowRect.mk a b c d).width = c ∧ (WindowRect.mk a b c d).height = d :=
  ⟨rfl, rfl, rfl, rfl⟩

/-- Claim C4: for every text input, including the empty string, a call
to `log_initialize` is defined (does not crash or throw) and performs no
input validation: the result is `some` of the full unvalidated line.
(The only undefined case of the model, a null `char*`, is not a text
input.) -/
theorem log_initialize_total_no_validation (p : List Char) :
    log_initialize_c (some p) = some (logHeader ++ p ++ lineTerminator) :=
  rfl

/-- Claim C5: `log_initialize` returns no value and signals no error
under any text input; its only effect is on the standard output stream,
and every other part of the program state is unchanged by the call. -/
theorem log_initialize_frame {σ : Type} (p : List Char) (st : ProgState σ) :
    (log_initialize_prog p st).other = st.other ∧
      (log_initialize_prog p st).stdout = log_initialize_stream p st.stdout ∧
      (log_initialize_c (some p)).isSome = true :=
  ⟨rfl, rfl, rfl⟩

/-- Claim C6: `WindowRect` imposes no invariant: every assignment of
four arbitrary integers, including negative width or height, is realised
by some `WindowRect` value. -/
theorem windowRect_no_invariant (a b c d : Int) :
    ∃ r : WindowRect, r.x = a ∧ r.y = b ∧ r.width = c ∧ r.height = d :=
  ⟨⟨a, b, c, d⟩, rfl, rfl, rfl, rfl⟩

/-- Claim C7: each call to `log_initialize` performs exactly one
blocking write to the shared output stream: the list of writes grows by
exactly one entry. -/
theorem log_initialize_one_write (p : List Char) (s : OStream) :
    (log_initialize_stream p s).written.length = s.written.length + 1 := by
  simp [log_initialize_stream, OStream.flush, OStream.insert]

/-- Claim C8: `log_initialize` is deterministic: two calls with equal
platform-name strings emit identical byte sequences, regardless of any
other part of the stream state. -/
theorem log_initialize_deterministic (p q : List Char) (s t : OStream)
    (h : p = q) : emittedBy p s = emittedBy q t := by
  rw [emittedBy_eq, emittedBy_eq, h]

/-- Claim C8 (witness): equal argument `"A"` from two different stream
states emits identical bytes. -/
theorem log_initialize_deterministic_witness :
    (['A'] : List Char) = ['A'] ∧
      emittedBy ['A'] ⟨['z'], [['q']]⟩ = emittedBy ['A'] ⟨[], []⟩ :=
  ⟨rfl, log_initialize_deterministic ['A'] ['A'] ⟨['z'], [['q']]⟩ ⟨[], []⟩ rfl⟩

/-- Claim C9: calling `log_initialize` with the empty string still emits
a full log line: exactly the fixed header (with its trailing space)
immediately followed by the line terminator, nothing in between. -/
theorem log_initialize_empty :
    log_initialize_line [] =
      ("Initializing window controller for platform: " ++ "\n").toList := by
  decide

/-- Claim C10: the map from platform name to emitted output is
injective, and the platform name is recovered from the output by
stripping the fixed header and the line terminator. -/
theorem log_initialize_recoverable :
    (∀ p : List Char, recoverPlatform (log_initialize_line p) = p) ∧
      Function.Injective log_initialize_line := by
  have hrec : ∀ p : List Char, recoverPlatform (log_initialize_line p) = p := by
    intro p
    rw [recoverPlatform, log_initialize_line, List.append_assoc, List.drop_left,
      lineTerminator]
    exact List.dropLast_concat
  exact ⟨hrec, Function.LeftInverse.injective hrec⟩

end WindowManager
